import Mathlib

/-!
Verification development for the Hive SME agent (beehive question-answering
system).  The embedding below translates, from the Python sources:

* `src/app/models.py` — the `SensorReading` record;
* `src/app/database.py` — `init_sql_db`, `get_hive_data` (latest-per-sensor
  SQL aggregation, keyword classifier, formatting, sentinels) and
  `search_bee_manual` (vector-store retrieval with its sentinels and its
  catch-all error conversion);
* `src/agent.py` — the LangGraph workflow wiring `agent` and `tools` nodes
  with a conditional edge (`tools_condition`) and the back edge
  `tools -> agent`.

Modelling conventions:

* SQLite timestamps (ISO datetime strings, parsed back to `datetime` by
  Pydantic) are modelled as naturals ordered like the datetimes; their
  display form is the decimal form of the natural.
* The REAL column `value` is modelled by its decimal rendering (a string),
  since no claim computes with it — only its display participates.
* A SQLite failure (`sqlite3.OperationalError` and friends) is modelled as
  the `Except.error` branch of the mini relational engine; Python
  `try/except` corresponds to matching that branch away, and its absence to
  propagating it.
-/

/-- One row of the `sensors` table / one Pydantic `SensorReading`
(src/app/models.py).  Field names follow the source. -/
structure SensorReading where
  sensor_id : String
  insert_timestamp : Nat
  type : String
  value : String
  unit : String
  upload_freq : String
deriving DecidableEq, Repr

/-- Boolean test that `needle` is a prefix of `hay` (character lists). -/
def isPrefixL : List Char → List Char → Bool
  | [], _ => true
  | _ :: _, [] => false
  | a :: as, b :: bs => a == b && isPrefixL as bs

/-- Boolean substring search on character lists, the model of Python's
`needle in hay`. -/
def containsSubL (needle : List Char) : List Char → Bool
  | [] => isPrefixL needle []
  | h :: t => isPrefixL needle (h :: t) || containsSubL needle t

/-- Model of Python's `needle in hay` on strings. -/
def containsSub (hay needle : String) : Bool :=
  containsSubL needle.data hay.data

/-- Model of Python's `str.lower()`: each character mapped to its
lower-case form (identical to `String.toLower` on the character list, but
structurally recursive so that concrete queries evaluate). -/
def lowerStr (s : String) : String :=
  ⟨s.data.map Char.toLower⟩

/-- The keyword classifier embedded in `get_hive_data`
(src/app/database.py lines 107-114): the lower-cased query is tested for
the substrings "temp", "humid", "weight" in that fixed priority order, and
the first match appends the corresponding `AND type = '...'` restriction to
the SQL; no match leaves the SQL unrestricted.  The appended restriction is
modelled as an `Option String` type filter. -/
def classify (query_string : String) : Option String :=
  let query_lower := lowerStr query_string
  if containsSub query_lower "temp" then some "temperature"
  else if containsSub query_lower "humid" then some "humidity"
  else if containsSub query_lower "weight" then some "weight"
  else none

/-- State of the SQLite file `hive_data.db`: whether the `sensors` table
exists, and its rows (in rowid order, the order an unordered SELECT
returns). -/
structure DbState where
  tableExists : Bool
  rows : List SensorReading
deriving DecidableEq, Repr

/-- SQL `MAX(insert_timestamp) ... WHERE s2.sensor_id = s1.sensor_id`: the
maximum timestamp among the rows carrying the given sensor id (the
correlated subquery of `get_hive_data`). -/
def maxTsFor (rows : List SensorReading) (sid : String) : Nat :=
  ((rows.filter (fun r => r.sensor_id == sid)).map
    (fun r => r.insert_timestamp)).foldl max 0

/-- The optional `AND type = '...'` restriction of the SELECT. -/
def typeMatches (tf : Option String) (r : SensorReading) : Bool :=
  match tf with
  | none => true
  | some t => r.type == t

/-- Result set of the SELECT issued by `get_hive_data`
(src/app/database.py lines 97-104): the rows whose `insert_timestamp`
equals the per-sensor maximum, further restricted by the classifier's type
filter; row order is the table's order. -/
def latestRows (rows : List SensorReading) (tf : Option String) :
    List SensorReading :=
  rows.filter (fun r =>
    r.insert_timestamp == maxTsFor rows r.sensor_id && typeMatches tf r)

/-- Executing the SELECT against the store: `cursor.execute` fails (raises
`sqlite3.OperationalError`) when the `sensors` table does not exist, and
never modifies the store. -/
def sqlSelectLatest (st : DbState) (tf : Option String) :
    DbState × Except String (List SensorReading) :=
  (st, if st.tableExists then Except.ok (latestRows st.rows tf)
       else Except.error "no such table: sensors")

/-- The line `f"Sensor {sensor_id} ({type}): {value}{unit} (Timestamp:
{insert_timestamp})"` built for each row (src/app/database.py line 137). -/
def format_reading (r : SensorReading) : String :=
  "Sensor " ++ r.sensor_id ++ " (" ++ r.type ++ "): " ++ r.value ++ r.unit
    ++ " (Timestamp: " ++ toString r.insert_timestamp ++ ")"

/-- Embedding of `get_hive_data` (src/app/database.py lines 86-139).  The
function builds the latest-per-sensor SELECT with the classifier's type
restriction, runs it, and formats the result; the source contains no
`try/except`, so a storage-layer failure propagates (`Except.error`).  The
returned `DbState` is the store after the call. -/
def get_hive_data (st : DbState) (query_string : String) :
    DbState × Except String String :=
  let qres := sqlSelectLatest st (classify query_string)
  match qres.2 with
  | Except.error e => (qres.1, Except.error e)
  | Except.ok rows =>
      (qres.1,
        Except.ok
          (if rows.isEmpty then "No sensor data found."
           else String.intercalate "\n" (rows.map format_reading)))

/-- SQL `CREATE TABLE IF NOT EXISTS sensors ...` (src/app/database.py
lines 41-51): creates an empty table when absent, otherwise a no-op. -/
def sqlCreateTable (st : DbState) : DbState :=
  if st.tableExists then st else ⟨true, []⟩

/-- One `INSERT OR REPLACE` with primary key (sensor_id, insert_timestamp):
a row with the same key is replaced, otherwise the row is appended. -/
def insertOrReplaceOne (rows : List SensorReading) (r : SensorReading) :
    List SensorReading :=
  if rows.any (fun r' =>
      r'.sensor_id == r.sensor_id &&
      r'.insert_timestamp == r.insert_timestamp) then
    rows.map (fun r' =>
      if r'.sensor_id == r.sensor_id &&
         r'.insert_timestamp == r.insert_timestamp then r else r')
  else rows ++ [r]

/-- Embedding of `cursor.executemany` with the `INSERT OR REPLACE INTO
sensors` statement (src/app/database.py lines 74-77). -/
def sqlInsertOrReplace (st : DbState) (rs : List SensorReading) : DbState :=
  ⟨st.tableExists, rs.foldl insertOrReplaceOne st.rows⟩

/-- Embedding of `init_sql_db` (src/app/database.py lines 35-84): create
the table if absent, count the rows (`SELECT count(*) FROM sensors` — the
table exists at this point, having just been created), and seed only when
the count is zero. -/
def init_sql_db (seed : List SensorReading) (st : DbState) : DbState :=
  let st1 := sqlCreateTable st
  if st1.rows.length == 0 then sqlInsertOrReplace st1 seed else st1

/-- State of the persisted Chroma vector store (`./vector_store`):
whether the persist directory exists (`os.path.exists(VECTOR_DB_PATH)`),
and the retrieval pipeline — query embedding plus Chroma similarity
ranking — as a function from the query to either a failure (any exception
from `OpenAIEmbeddings`, `Chroma` or the search) or the store's chunk
texts ranked by similarity, most similar first. -/
structure VectorStore where
  pathExists : Bool
  search : String → Except String (List String)

/-- Modelled from the library contract of
`Chroma.similarity_search(query, k)`: the `k` most similar chunks (fewer
when the store holds fewer), or the pipeline's failure. -/
def similarity_search (vs : VectorStore) (query_string : String) (k : Nat) :
    Except String (List String) :=
  (vs.search query_string).map (fun cs => cs.take k)

/-- Embedding of `search_bee_manual` (src/app/database.py lines 184-210):
the uninitialized-store sentinel is returned before anything else runs;
the whole retrieval pipeline sits in a `try/except` whose handler returns
`"Error querying Vector DB: " + str(e)`; an empty result list yields the
no-results sentinel, otherwise the chunk texts are joined with a separator
line and prefixed.  The returned `VectorStore` is the store after the
call (the function only reads it). -/
def search_bee_manual (vs : VectorStore) (query_string : String) :
    VectorStore × String :=
  if vs.pathExists = false then
    (vs, "Error: Vector database not initialized. (Run main.py first)")
  else
    match similarity_search vs query_string 3 with
    | Except.error e => (vs, "Error querying Vector DB: " ++ e)
    | Except.ok results =>
        if results.isEmpty then
          (vs, "No relevant info found in the Bee Manual.")
        else
          (vs, "From Bee Manual:\n" ++ String.intercalate "\n---\n" results)

/-- A tool-invocation request attached to an assistant message: tool name
plus the single string argument. -/
structure ToolCall where
  name : String
  args : String
deriving DecidableEq, Repr

/-- A conversation message (LangChain `BaseMessage`): user input, an
assistant message with its (possibly empty) list of tool calls, or a tool
result. -/
inductive Msg where
  | user (content : String)
  | assistant (content : String) (tool_calls : List ToolCall)
  | tool (name : String) (content : String)
deriving DecidableEq, Repr

/-- The nodes of the compiled LangGraph workflow in src/agent.py: the
`agent` node, the `tools` node, and the END vertex. -/
inductive GraphNode where
  | agent
  | tools
  | END
deriving DecidableEq, Repr

/-- A point in the execution of the compiled graph: the current node and
the `AgentState`'s message list. -/
structure WorkflowState where
  node : GraphNode
  messages : List Msg
deriving Repr

/-- Embedding of `langgraph.prebuilt.tools_condition`: route to the `tools` node when
the last message is an assistant message carrying at least one tool call,
otherwise to END. -/
def tools_condition (messages : List Msg) : GraphNode :=
  match messages.getLast? with
  | some (Msg.assistant _ (_ :: _)) => GraphNode.tools
  | _ => GraphNode.END

/-- Embedding of `agent_node` (src/agent.py lines 61-69): invoke the reasoning
capability `llm` on the conversation and append its assistant response
(content and tool calls); `add_messages` appends. -/
def agent_node (llm : List Msg → String × List ToolCall)
    (messages : List Msg) : List Msg :=
  messages ++ [Msg.assistant (llm messages).1 (llm messages).2]

/-- Embedding of `ToolNode(tools)`: execute each tool call of the last assistant
message through the tool executor `ex`, appending one tool-result message
per call, in request order. -/
def tool_node (ex : ToolCall → String) (messages : List Msg) : List Msg :=
  match messages.getLast? with
  | some (Msg.assistant _ calls) =>
      messages ++ calls.map (fun c => Msg.tool c.name (ex c))
  | _ => messages

/-- One step of the compiled workflow graph (src/agent.py lines 72-88):
entry point `agent`; a conditional edge from `agent` chosen by
`tools_condition`; an unconditional edge from `tools` back to `agent`;
END is absorbing.  The graph definition contains no iteration bound. -/
def workflow_step (llm : List Msg → String × List ToolCall)
    (ex : ToolCall → String) : WorkflowState → WorkflowState
  | ⟨GraphNode.agent, messages⟩ =>
      let messages' := agent_node llm messages
      ⟨tools_condition messages', messages'⟩
  | ⟨GraphNode.tools, messages⟩ => ⟨GraphNode.agent, tool_node ex messages⟩
  | ⟨GraphNode.END, messages⟩ => ⟨GraphNode.END, messages⟩

/-! Helper lemmas about `List.foldl max` (the model of SQL `MAX`). -/

lemma le_foldl_max (l : List Nat) (a : Nat) : a ≤ l.foldl max a := by
  induction l generalizing a with
  | nil => exact Nat.le_refl a
  | cons h t ih =>
      exact Nat.le_trans (Nat.le_max_left a h) (ih (max a h))

lemma mem_le_foldl_max : ∀ (l : List Nat) (a b : Nat), b ∈ l → b ≤ l.foldl max a
  | [], _, _, hb => absurd hb (List.not_mem_nil _)
  | h :: t, a, b, hb => by
      simp only [List.foldl_cons]
      rcases List.mem_cons.mp hb with rfl | hm
      · exact Nat.le_trans (Nat.le_max_right a b) (le_foldl_max t (max a b))
      · exact mem_le_foldl_max t (max a h) b hm

lemma foldl_max_mem (l : List Nat) (a : Nat) :
    l.foldl max a = a ∨ l.foldl max a ∈ l := by
  induction l generalizing a with
  | nil => exact Or.inl rfl
  | cons h t ih =>
      simp only [List.foldl_cons]
      rcases ih (max a h) with heq | hm
      · rw [heq]
        rcases max_choice a h with hc | hc
        · exact Or.inl hc
        · rw [hc]
          exact Or.inr (List.mem_cons_self h t)
      · exact Or.inr (List.mem_cons_of_mem h hm)

lemma foldl_max_zero_mem (l : List Nat) (hl : l ≠ []) : l.foldl max 0 ∈ l := by
  rcases foldl_max_mem l 0 with heq | hm
  · cases l with
    | nil => exact absurd rfl hl
    | cons h t =>
        have hh : h ≤ 0 := by
          have := mem_le_foldl_max (h :: t) 0 h (List.mem_cons_self h t)
          omega
        have h0 : h = 0 := Nat.le_zero.mp hh
        rw [heq, ← h0]
        exact List.mem_cons_self h t
  · exact hm

/-- C10: `init_sql_db` is idempotent on a non-empty store — when the
`sensors` table exists and holds at least one row, the state is returned
unchanged (seeding happens only at row count zero). -/
theorem claim10_init_sql_db_idempotent (st : DbState)
    (seed : List SensorReading) (hex : st.tableExists = true)
    (hne : st.rows ≠ []) :
    init_sql_db seed st = st := by
  have h1 : sqlCreateTable st = st := by
    simp [sqlCreateTable, hex]
  have h2 : (st.rows.length == 0) = false := by
    cases hr : st.rows with
    | nil => exact absurd hr hne
    | cons a t => rfl
  simp only [init_sql_db, h1, h2]
  simp

/-- Witness for C10 at a one-row store. -/
theorem claim10_witness :
    init_sql_db [⟨"S9", 9, "weight", "1.0", "kg", "15min"⟩]
        ⟨true, [⟨"S1", 1, "temperature", "34.5", "C", "15min"⟩]⟩ =
      ⟨true, [⟨"S1", 1, "temperature", "34.5", "C", "15min"⟩]⟩ :=
  claim10_init_sql_db_idempotent _ _ rfl (by simp)

/-- C9: both tool handlers are read-only — the store states they return
are exactly the store states they were given. -/
theorem claim9_tools_read_only (st : DbState) (vs : VectorStore)
    (q q' : String) :
    (get_hive_data st q).1 = st ∧ (search_bee_manual vs q').1 = vs := by
  constructor
  · unfold get_hive_data sqlSelectLatest
    split <;> rfl
  · unfold search_bee_manual
    split
    · rfl
    · split
      · rfl
      · split <;> rfl

/-- C7: when the latest-per-sensor query (after the keyword restriction)
yields no rows — in particular on an empty Reading Store — `get_hive_data`
returns exactly the sentinel "No sensor data found.". -/
theorem claim7_empty_result_sentinel (st : DbState) (q : String)
    (hex : st.tableExists = true) :
    (latestRows st.rows (classify q) = [] →
      get_hive_data st q = (st, Except.ok "No sensor data found.")) ∧
    (st.rows = [] →
      get_hive_data st q = (st, Except.ok "No sensor data found.")) := by
  have main : latestRows st.rows (classify q) = [] →
      get_hive_data st q = (st, Except.ok "No sensor data found.") := by
    intro hempty
    simp [get_hive_data, sqlSelectLatest, hex, hempty]
  exact ⟨main, fun hrows => main (by simp [latestRows, hrows])⟩

/-- Witness for C7 at an empty store. -/
theorem claim7_witness :
    get_hive_data ⟨true, []⟩ "weight" =
      (⟨true, []⟩, Except.ok "No sensor data found.") :=
  (claim7_empty_result_sentinel ⟨true, []⟩ "weight" rfl).2 rfl

/-- C6: with an uninitialized semantic store (persist directory absent),
`search_bee_manual` returns the not-initialized sentinel, and the outcome
is independent of the retrieval pipeline — no embedding call and no
similarity search influence the result. -/
theorem claim6_uninitialized_sentinel
    (f g : String → Except String (List String)) (q : String) :
    search_bee_manual ⟨false, f⟩ q =
      (⟨false, f⟩,
       "Error: Vector database not initialized. (Run main.py first)") ∧
    (search_bee_manual ⟨false, f⟩ q).2 = (search_bee_manual ⟨false, g⟩ q).2 := by
  constructor <;> rfl

/-- C3 counterexample: the claim says neither handler lets a failure
propagate, but `get_hive_data` has no exception handling — on a store
whose `sensors` table is missing, the storage failure comes back as a
raised error, not as a message string. -/
theorem claim3_counterexample :
    get_hive_data ⟨false, []⟩ "temp" =
      (⟨false, []⟩, Except.error "no such table: sensors") := rfl

/-- C3 amended: `search_bee_manual` converts any embedding-service or
store-access failure into an "Error querying Vector DB: <detail>" message
string, but `get_hive_data` performs no exception handling, so a
storage-layer failure propagates to the caller. -/
theorem claim3_amended_error_boundary :
    (∀ (st : DbState) (q : String), st.tableExists = false →
        get_hive_data st q = (st, Except.error "no such table: sensors")) ∧
    (∀ (vs : VectorStore) (q e : String), vs.pathExists = true →
        vs.search q = Except.error e →
        search_bee_manual vs q = (vs, "Error querying Vector DB: " ++ e)) := by
  constructor
  · intro st q hex
    simp [get_hive_data, sqlSelectLatest, hex]
  · intro vs q e hp hq
    simp [search_bee_manual, similarity_search, hp, hq, Except.map]

/-- Witness for the amended C3 at concrete failing stores. -/
theorem claim3_witness :
    get_hive_data ⟨false, []⟩ "x" =
      (⟨false, []⟩, Except.error "no such table: sensors") ∧
    search_bee_manual ⟨true, fun _ => Except.error "boom"⟩ "x" =
      (⟨true, fun _ => Except.error "boom"⟩,
       "Error querying Vector DB: " ++ "boom") :=
  ⟨claim3_amended_error_boundary.1 _ _ rfl,
   claim3_amended_error_boundary.2 _ _ _ rfl rfl⟩

/-- C5: on an initialized store whose pipeline succeeds with the ranked
chunk list `cs`, `search_bee_manual` takes the top 3 chunks (all of them,
with no error, when fewer than 3 exist); a nonempty selection is joined
with the separator line and prefixed, an empty search result yields the
no-results sentinel. -/
theorem claim5_top_k_and_formatting (vs : VectorStore) (q : String)
    (cs : List String) (hp : vs.pathExists = true)
    (hq : vs.search q = Except.ok cs) :
    (cs = [] →
      search_bee_manual vs q = (vs, "No relevant info found in the Bee Manual.")) ∧
    (cs ≠ [] →
      search_bee_manual vs q =
        (vs, "From Bee Manual:\n" ++ String.intercalate "\n---\n" (cs.take 3))) ∧
    (cs.take 3).length = min 3 cs.length ∧
    (cs.length < 3 → cs.take 3 = cs) := by
  refine ⟨?_, ?_, ?_, ?_⟩
  · intro hnil
    subst hnil
    simp [search_bee_manual, similarity_search, hp, hq, Except.map]
  · intro hne
    have hie : (cs.take 3).isEmpty = false := by
      cases cs with
      | nil => exact absurd rfl hne
      | cons a t => rfl
    simp [search_bee_manual, similarity_search, hp, hq, Except.map, hie]
  · exact List.length_take 3 cs
  · intro hlt
    exact List.take_of_length_le (Nat.le_of_lt hlt)

/-- Witness for C5: a store holding a single chunk returns exactly that
one chunk, formatted, with no error. -/
theorem claim5_witness :
    search_bee_manual ⟨true, fun _ => Except.ok ["Bees thrive at 35C"]⟩
        "ideal temperature" =
      (⟨true, fun _ => Except.ok ["Bees thrive at 35C"]⟩,
       "From Bee Manual:\n" ++
         String.intercalate "\n---\n" (["Bees thrive at 35C"].take 3)) :=
  (claim5_top_k_and_formatting _ _ _ rfl rfl).2.1 (List.cons_ne_nil _ _)

/-- Restricting by type after the latest-per-sensor aggregation equals the
combined SELECT: the appended `AND type = t` clause filters the
LatestReadingSet. -/
lemma latestRows_some_eq (rows : List SensorReading) (t : String) :
    latestRows rows (some t) =
      (latestRows rows none).filter (fun r => r.type == t) := by
  unfold latestRows
  rw [List.filter_filter]
  apply List.filter_congr
  intro r _
  cases h1 : (r.insert_timestamp == maxTsFor rows r.sensor_id) <;>
    cases h2 : (r.type == t) <;> simp [typeMatches, h1, h2]

/-- C2: the keyword classifier is deterministic, case-insensitive and
priority-ordered over the lower-cased input: "temp" anywhere (regardless
of "humid" or "weight" also occurring) restricts to temperature, else
"humid" to humidity, else "weight" to weight, else the full
latest-per-sensor set is returned; queries with equal lower-casings
classify identically. -/
theorem claim2_keyword_classifier (q : String) (rows : List SensorReading) :
    (containsSub (lowerStr q) "temp" = true →
      classify q = some "temperature" ∧
      latestRows rows (classify q) =
        (latestRows rows none).filter (fun r => r.type == "temperature")) ∧
    (containsSub (lowerStr q) "temp" = false →
      containsSub (lowerStr q) "humid" = true →
      classify q = some "humidity" ∧
      latestRows rows (classify q) =
        (latestRows rows none).filter (fun r => r.type == "humidity")) ∧
    (containsSub (lowerStr q) "temp" = false →
      containsSub (lowerStr q) "humid" = false →
      containsSub (lowerStr q) "weight" = true →
      classify q = some "weight" ∧
      latestRows rows (classify q) =
        (latestRows rows none).filter (fun r => r.type == "weight")) ∧
    (containsSub (lowerStr q) "temp" = false →
      containsSub (lowerStr q) "humid" = false →
      containsSub (lowerStr q) "weight" = false →
      classify q = none ∧
      latestRows rows (classify q) = latestRows rows none) ∧
    (∀ q' : String, lowerStr q = lowerStr q' → classify q = classify q') := by
  refine ⟨?_, ?_, ?_, ?_, ?_⟩
  · intro h1
    have hc : classify q = some "temperature" := by simp [classify, h1]
    exact ⟨hc, by rw [hc, latestRows_some_eq]⟩
  · intro h1 h2
    have hc : classify q = some "humidity" := by simp [classify, h1, h2]
    exact ⟨hc, by rw [hc, latestRows_some_eq]⟩
  · intro h1 h2 h3
    have hc : classify q = some "weight" := by simp [classify, h1, h2, h3]
    exact ⟨hc, by rw [hc, latestRows_some_eq]⟩
  · intro h1 h2 h3
    have hc : classify q = none := by simp [classify, h1, h2, h3]
    exact ⟨hc, by rw [hc]⟩
  · intro q' hq
    simp [classify, hq]

/-- Witness for C2: a query containing both "temp" (capitalised) and
"humid" restricts to temperature by priority. -/
theorem claim2_witness :
    classify "Temp and humid?" = some "temperature" ∧
    latestRows
        [⟨"S1", 1, "temperature", "34.5", "C", "15min"⟩,
         ⟨"S2", 1, "humidity", "60.0", "%", "15min"⟩] (classify "Temp and humid?") =
      (latestRows
        [⟨"S1", 1, "temperature", "34.5", "C", "15min"⟩,
         ⟨"S2", 1, "humidity", "60.0", "%", "15min"⟩] none).filter
        (fun r => r.type == "temperature") :=
  (claim2_keyword_classifier "Temp and humid?" _).1 (by decide)

/-- C8: on a non-empty result set, the output of `get_hive_data` is the
newline-join, in query order, of one line per surviving reading, each of
the exact form `Sensor <id> (<type>): <value><unit> (Timestamp: <ts>)`. -/
theorem claim8_line_format (st : DbState) (q : String)
    (hex : st.tableExists = true)
    (hne : latestRows st.rows (classify q) ≠ []) :
    get_hive_data st q =
      (st, Except.ok (String.intercalate "\n"
        ((latestRows st.rows (classify q)).map format_reading))) ∧
    ∀ r : SensorReading,
      format_reading r =
        "Sensor " ++ r.sensor_id ++ " (" ++ r.type ++ "): " ++ r.value ++
          r.unit ++ " (Timestamp: " ++ toString r.insert_timestamp ++ ")" := by
  constructor
  · have hie : (latestRows st.rows (classify q)).isEmpty = false := by
      cases h : latestRows st.rows (classify q) with
      | nil => exact absurd h hne
      | cons a t => rfl
    simp [get_hive_data, sqlSelectLatest, hex, hie]
  · intro r
    rfl

/-- Witness for C8 at a one-row store and a temperature query. -/
theorem claim8_witness :
    get_hive_data ⟨true, [⟨"S1", 1, "temperature", "34.5", "C", "15min"⟩]⟩
        "temp" =
      (⟨true, [⟨"S1", 1, "temperature", "34.5", "C", "15min"⟩]⟩,
       Except.ok (String.intercalate "\n"
         ((latestRows [⟨"S1", 1, "temperature", "34.5", "C", "15min"⟩]
            (classify "temp")).map format_reading))) :=
  (claim8_line_format _ _ rfl (by decide)).1

/-- C4: the workflow graph of src/agent.py has no iteration bound — with a
reasoning capability that requests at least one tool call on every
invocation, no number of execution steps ever reaches END; the code
contains no maximum-invocation configuration and no LoopBoundExceeded
condition, so the agent-tools cycle repeats forever. -/
theorem claim4_loop_unbounded (llm : List Msg → String × List ToolCall)
    (ex : ToolCall → String) (input : String) (n : Nat)
    (h : ∀ ms, (llm ms).2 ≠ []) :
    ((workflow_step llm ex)^[n] ⟨GraphNode.agent, [Msg.user input]⟩).node ≠
      GraphNode.END := by
  have key : ∀ s : WorkflowState, s.node ≠ GraphNode.END →
      (workflow_step llm ex s).node ≠ GraphNode.END := by
    intro s hs
    cases s with
    | mk node messages =>
      cases node with
      | agent =>
          have hlast : (agent_node llm messages).getLast? =
              some (Msg.assistant (llm messages).1 (llm messages).2) := by
            unfold agent_node
            exact List.getLast?_concat _
          simp only [workflow_step]
          unfold tools_condition
          rw [hlast]
          cases hc : (llm messages).2 with
          | nil => exact absurd hc (h messages)
          | cons a t => simp
      | tools => simp [workflow_step]
      | END => exact absurd rfl hs
  induction n with
  | zero => simp
  | succ k ih =>
      rw [Function.iterate_succ_apply']
      exact key _ ih

/-- Witness for C4: a capability that always asks for one
`tool_get_hive_data` call keeps the graph away from END after 25 steps. -/
theorem claim4_witness :
    ((workflow_step (fun _ => ("", [⟨"tool_get_hive_data", "temp"⟩]))
        (fun _ => "tool result"))^[25]
      ⟨GraphNode.agent, [Msg.user "What is the temperature?"]⟩).node ≠
      GraphNode.END :=
  claim4_loop_unbounded _ _ _ 25 (fun ms => by simp)

/-- Filtering the unrestricted LatestReadingSet to one sensor id equals
filtering that sensor's rows to the rows attaining its maximum
timestamp. -/
lemma latest_filter_by_sid (rows : List SensorReading) (sid : String) :
    (latestRows rows none).filter (fun r => r.sensor_id == sid) =
      (rows.filter (fun r => r.sensor_id == sid)).filter
        (fun r => r.insert_timestamp == maxTsFor rows sid) := by
  unfold latestRows
  rw [List.filter_filter, List.filter_filter]
  apply List.filter_congr
  intro r _
  cases hsid : (r.sensor_id == sid) with
  | false => simp [typeMatches, hsid]
  | true =>
      have hr : r.sensor_id = sid := eq_of_beq hsid
      simp [typeMatches, hsid, hr]

/-- A list of rows with pairwise-distinct timestamps has exactly one row
attaining any timestamp value that occurs in it. -/
lemma filter_ts_singleton (l : List SensorReading) (M : Nat)
    (hnd : (l.map (fun r => r.insert_timestamp)).Nodup)
    (hM : M ∈ l.map (fun r => r.insert_timestamp)) :
    (l.filter (fun r => r.insert_timestamp == M)).length = 1 := by
  induction l with
  | nil => cases hM
  | cons a t ih =>
      simp only [List.map_cons, List.nodup_cons] at hnd
      rcases hnd with ⟨hnotin, hndt⟩
      simp only [List.map_cons, List.mem_cons] at hM
      rcases hM with heq | hmem
      · have ha : (a.insert_timestamp == M) = true := beq_iff_eq.mpr heq.symm
        have hfil : t.filter (fun r => r.insert_timestamp == M) = [] := by
          rw [List.filter_eq_nil_iff]
          intro r hr hc
          have hts : r.insert_timestamp = M := eq_of_beq hc
          apply hnotin
          rw [← heq, ← hts]
          exact List.mem_map_of_mem _ hr
        simp [List.filter_cons, ha, hfil]
      · have hne : (a.insert_timestamp == M) = false := by
          cases hb : (a.insert_timestamp == M) with
          | false => rfl
          | true =>
              exact absurd (eq_of_beq hb ▸ hmem) hnotin
        simp only [List.filter_cons, hne]
        exact ih hndt hmem

/-- C1: on a table whose rows have pairwise-unique (sensor_id,
insert_timestamp) keys, the latest-per-sensor aggregation of
`get_hive_data` keeps exactly one row per sensor id occurring in the
table, that row carries the sensor's maximum timestamp, and every row of
the sensor is bounded by that maximum. -/
theorem claim1_latest_unique_max (rows : List SensorReading) (sid : String)
    (hpk : rows.Pairwise (fun a b =>
      a.sensor_id = b.sensor_id → a.insert_timestamp ≠ b.insert_timestamp))
    (hsid : sid ∈ rows.map (fun r => r.sensor_id)) :
    ((latestRows rows none).filter (fun r => r.sensor_id == sid)).length = 1 ∧
    (∀ r ∈ latestRows rows none, r.sensor_id = sid →
      r.insert_timestamp = maxTsFor rows sid) ∧
    (∀ r ∈ rows, r.sensor_id = sid →
      r.insert_timestamp ≤ maxTsFor rows sid) := by
  have hmemL : ∀ r ∈ rows, r.sensor_id = sid →
      r ∈ rows.filter (fun r' => r'.sensor_id == sid) := by
    intro r hr hs
    exact List.mem_filter.mpr ⟨hr, beq_iff_eq.mpr hs⟩
  have hmax_le : ∀ r ∈ rows, r.sensor_id = sid →
      r.insert_timestamp ≤ maxTsFor rows sid := by
    intro r hr hs
    exact mem_le_foldl_max _ 0 _ (List.mem_map_of_mem _ (hmemL r hr hs))
  refine ⟨?_, ?_, hmax_le⟩
  · have hpairL : (rows.filter (fun r => r.sensor_id == sid)).Pairwise
        (fun a b => a.insert_timestamp ≠ b.insert_timestamp) := by
      refine List.Pairwise.imp_of_mem ?_
        (hpk.filter (fun r => r.sensor_id == sid))
      intro a b ha hb hR
      exact hR ((eq_of_beq (List.mem_filter.mp ha).2).trans
        (eq_of_beq (List.mem_filter.mp hb).2).symm)
    have hnd : ((rows.filter (fun r => r.sensor_id == sid)).map
        (fun r => r.insert_timestamp)).Nodup :=
      List.pairwise_map.mpr hpairL
    have hLne : rows.filter (fun r => r.sensor_id == sid) ≠ [] := by
      rcases List.mem_map.mp hsid with ⟨r0, hr0, hs0⟩
      intro hcon
      have hmem0 := hmemL r0 hr0 hs0
      rw [hcon] at hmem0
      exact List.not_mem_nil _ hmem0
    have hMmem : maxTsFor rows sid ∈
        (rows.filter (fun r => r.sensor_id == sid)).map
          (fun r => r.insert_timestamp) := by
      apply foldl_max_zero_mem
      cases hfl : rows.filter (fun r => r.sensor_id == sid) with
      | nil => exact absurd hfl hLne
      | cons a t => simp
    rw [latest_filter_by_sid]
    exact filter_ts_singleton _ _ hnd hMmem
  · intro r hr hs
    unfold latestRows at hr
    have hp := (List.mem_filter.mp hr).2
    simp only [typeMatches, Bool.and_true] at hp
    have := eq_of_beq hp
    rw [hs] at this
    exact this

/-- Witness for C1: a table with two readings for S1 and one for S2 keeps
exactly one latest S1 row. -/
theorem claim1_witness :
    ((latestRows
        [⟨"S1", 1, "temperature", "34.5", "C", "15min"⟩,
         ⟨"S1", 2, "temperature", "35.1", "C", "15min"⟩,
         ⟨"S2", 1, "humidity", "60.0", "%", "15min"⟩] none).filter
      (fun r => r.sensor_id == "S1")).length = 1 :=
  (claim1_latest_unique_max _ "S1" (by decide) (by decide)).1
